import Mathlib

/-!
Shallow embedding of the VWAP mean-reversion strategy (`VWAP.h` / `VWAP.cpp`,
class `VWAPStrategy`) and proofs about its rolling-VWAP window, readiness and
deviation evaluation, position decision logic, order adjustment, and parameter
handling.

Modelling conventions:
* `double` is modelled by `ℚ` (exact real-valued arithmetic; claims about
  floating point are read up to rounding).
* `Utilities::TimeType` (a boost `ptime`) is modelled as an integer count of
  microsecond ticks, matching the resolution of `boost::posix_time`;
  `time_duration::total_seconds()` is truncated integer division by 10^6.
* `std::deque<VWAPTradeRecord>` is modelled as a `List` whose head is the
  deque's front; `push_back` appends at the end of the list.
* C++ calls that are undefined behaviour on an empty container
  (`front()` / `back()` on an empty deque) are modelled with `Option`:
  `none` marks the undefined access.
-/

namespace VWAP

/-- Time is an integer count of microsecond ticks (boost posix_time resolution). -/
abbrev TimeType := Int

/-- Number of microsecond ticks per second; `boost::posix_time::seconds(w)` is
`w * microsPerSecond` ticks. -/
def microsPerSecond : Int := 1000000

/-- `boost::posix_time::time_duration::total_seconds()`: the duration in whole
seconds, truncated toward zero (C++ integer division semantics). -/
def totalSeconds (d : Int) : Int := d.tdiv microsPerSecond

/-- `struct VWAPTradeRecord { TimeType timestamp; double price; int volume; }`. -/
structure VWAPTradeRecord where
  timestamp : TimeType
  price : ℚ
  volume : Int
deriving Repr, DecidableEq

/-- The window-related fields of `VWAPStrategy`: the deque `vwap_window_`
(front = list head) and the two running accumulators `cumulative_pv_` and
`cumulative_volume_`. -/
structure VWAPState where
  vwap_window : List VWAPTradeRecord
  cumulative_pv : ℚ
  cumulative_volume : Int
deriving Repr, DecidableEq

/-- The constructor `VWAPStrategy::VWAPStrategy` initializes the window empty
and both accumulators to zero. -/
def initialVWAPState : VWAPState :=
  { vwap_window := [], cumulative_pv := 0, cumulative_volume := 0 }

/-- `VWAPStrategy::OnResetStrategyState`: clears the window and zeroes both
accumulators. -/
def OnResetStrategyState (_s : VWAPState) : VWAPState :=
  { vwap_window := [], cumulative_pv := 0, cumulative_volume := 0 }

/-- `VWAPStrategy::AddTradeToWindow`: push a record at the back and add its
contribution to both accumulators. -/
def AddTradeToWindow (s : VWAPState) (price : ℚ) (volume : Int)
    (timestamp : TimeType) : VWAPState :=
  { vwap_window := s.vwap_window ++ [⟨timestamp, price, volume⟩],
    cumulative_pv := s.cumulative_pv + price * volume,
    cumulative_volume := s.cumulative_volume + volume }

/-- The `while` loop of `VWAPStrategy::PruneOldTrades` on the raw window and
accumulators: while the front record's timestamp is strictly before the
cutoff, pop it and subtract its contribution. -/
def pruneAux (window : List VWAPTradeRecord) (pv : ℚ) (vol : Int)
    (cutoff : TimeType) : List VWAPTradeRecord × ℚ × Int :=
  match window with
  | [] => ([], pv, vol)
  | r :: rest =>
    if r.timestamp < cutoff then
      pruneAux rest (pv - r.price * r.volume) (vol - r.volume) cutoff
    else
      (r :: rest, pv, vol)

/-- `VWAPStrategy::PruneOldTrades(cutoff_time)`. -/
def PruneOldTrades (s : VWAPState) (cutoff_time : TimeType) : VWAPState :=
  { vwap_window :=
      (pruneAux s.vwap_window s.cumulative_pv s.cumulative_volume cutoff_time).1,
    cumulative_pv :=
      (pruneAux s.vwap_window s.cumulative_pv s.cumulative_volume cutoff_time).2.1,
    cumulative_volume :=
      (pruneAux s.vwap_window s.cumulative_pv s.cumulative_volume cutoff_time).2.2 }

/-- `VWAPStrategy::GetVWAP`: `cumulative_pv_ / cumulative_volume_`, or `0.0`
when `cumulative_volume_ == 0`. -/
def GetVWAP (s : VWAPState) : ℚ :=
  if s.cumulative_volume = 0 then 0
  else s.cumulative_pv / (s.cumulative_volume : ℚ)

/-- `VWAPStrategy::IsVWAPReady`: returns `true` when the window holds at least
`MIN_TRADE_REQUIRED = 3` records; otherwise compares the span between
`back()` and `front()` with `vwap_window_seconds_`. The source performs the
`back()`/`front()` accesses unconditionally, which on an empty deque is
undefined behaviour; that access is modelled as `none`. -/
def IsVWAPReady (s : VWAPState) (vwap_window_seconds : Int) : Option Bool :=
  if 3 ≤ s.vwap_window.length then
    some true
  else
    match s.vwap_window.getLast?, s.vwap_window.head? with
    | some back_r, some front_r =>
      some (decide (vwap_window_seconds ≤
        totalSeconds (back_r.timestamp - front_r.timestamp)))
    | _, _ => none

/-- `VWAPStrategy::CalculateMidPrice`: `(bid + ask) / 2.0`. -/
def CalculateMidPrice (bid ask : ℚ) : ℚ := (bid + ask) / 2

/-- `VWAPStrategy::CalculateDeviation`: `0.0` when `vwap == 0.0`, else
`((mid_price - vwap) / vwap) * 10000.0` basis points. -/
def CalculateDeviation (mid_price vwap : ℚ) : ℚ :=
  if vwap = 0 then 0
  else ((mid_price - vwap) / vwap) * 10000

/-- The position decision block of `VWAPStrategy::OnTrade` (step 5,
`int desired_position = 0;` followed by the exit / entry branches). Note that
the source initializes `desired_position` to `0` and the branches that fire no
signal leave that initial value in place. -/
def desiredPosition (current_position : Int) (deviation_bps : ℚ)
    (entry_threshold_bps : ℚ) (max_inventory : Int) (position_size : Int) : Int :=
  if 0 < current_position ∧ 0 ≤ deviation_bps then
    0
  else if current_position < 0 ∧ deviation_bps ≤ 0 then
    0
  else if |current_position| < max_inventory then
    if deviation_bps < -entry_threshold_bps then
      current_position + position_size
    else if entry_threshold_bps < deviation_bps then
      current_position - position_size
    else
      0
  else
    0

/-- The window-maintenance prefix of `VWAPStrategy::OnTrade` (steps 1 and 2):
add the incoming trade, then prune records older than
`event_time - seconds(vwap_window_seconds_)`. -/
def OnTradeWindowUpdate (s : VWAPState) (price : ℚ) (volume : Int)
    (event_time : TimeType) (vwap_window_seconds : Int) : VWAPState :=
  PruneOldTrades (AddTradeToWindow s price volume event_time)
    (event_time - vwap_window_seconds * microsPerSecond)

end VWAP

namespace VWAP

/-! Order adjustment (`AdjustPortfolio` / `SendOrder`). -/

inductive OrderSide
  | buy
  | sell
deriving Repr, DecidableEq

inductive OrderTif
  | day
deriving Repr, DecidableEq

inductive OrderType
  | market
  | limit
deriving Repr, DecidableEq

inductive MarketCenter
  | nasdaq
  | cmeGlobex
deriving Repr, DecidableEq

inductive InstrumentType
  | equity
  | futures
deriving Repr, DecidableEq

/-- A working order as seen by `AdjustPortfolio`: its id and side. -/
structure Order where
  order_id : Nat
  order_side : OrderSide
deriving Repr, DecidableEq

/-- The instrument's top-of-book quote, with per-side validity flags
(`top_quote().ask_side().IsValid()` etc.). -/
structure TopQuote where
  bid : ℚ
  ask : ℚ
  bid_valid : Bool
  ask_valid : Bool
deriving Repr, DecidableEq

/-- The `OrderParams` built by `VWAPStrategy::SendOrder`. -/
structure OrderParams where
  quantity : Int
  price : ℚ
  market_center : MarketCenter
  side : OrderSide
  tif : OrderTif
  order_type : OrderType
deriving Repr, DecidableEq

/-- The single order action an event handler issues through
`trade_actions()`, or no action at all. -/
inductive OrderAction
  | noAction
  | sendNewOrder (params : OrderParams)
  | sendCancelOrder (order_id : Nat)
  | sendCancelAll
deriving Repr, DecidableEq

/-- `VWAPStrategy::SendOrder`: skip when either side of the quote is invalid;
otherwise submit a market order for `abs(trade_size)` units, buy side when
`trade_size > 0`, priced at the ask for buys and the bid for sells. -/
def SendOrder (instrument_type : InstrumentType) (quote : TopQuote)
    (trade_size : Int) : OrderAction :=
  if !quote.ask_valid || !quote.bid_valid then
    .noAction
  else
    let price : ℚ := if 0 < trade_size then quote.ask else quote.bid
    .sendNewOrder
      { quantity := |trade_size|,
        price := price,
        market_center :=
          if instrument_type = .equity then .nasdaq else .cmeGlobex,
        side := if 0 < trade_size then .buy else .sell,
        tif := .day,
        order_type := .market }

/-- `VWAPStrategy::AdjustPortfolio`: diff desired vs current position into
`trade_size`; send a new order when nonzero and no working order exists,
cancel the first working order when it conflicts with the required direction,
cancel all working orders when the desired position is already reached. -/
def AdjustPortfolio (instrument_type : InstrumentType) (quote : TopQuote)
    (current_position desired_position : Int)
    (working_orders : List Order) : OrderAction :=
  let trade_size := desired_position - current_position
  if trade_size ≠ 0 then
    if working_orders.length = 0 then
      SendOrder instrument_type quote trade_size
    else
      match working_orders.head? with
      | some order =>
        if (order.order_side = .buy ∧ trade_size < 0) ∨
           (order.order_side = .sell ∧ 0 < trade_size) then
          .sendCancelOrder order.order_id
        else
          .noAction
      | none => .noAction
  else
    if 0 < working_orders.length then .sendCancelAll else .noAction

end VWAP

namespace VWAP

/-! Parameter handling (`DefineStrategyParams` / `OnParamChanged`). -/

/-- The five configuration fields of `VWAPStrategy`. -/
structure Config where
  vwap_window_seconds : Int
  entry_threshold_bps : ℚ
  max_inventory : Int
  position_size : Int
  debug : Bool
deriving Repr, DecidableEq

/-- The constructor defaults: window 300 s, threshold 0.1 bps, max inventory
5, position size 1, debug on. -/
def defaultConfig : Config :=
  { vwap_window_seconds := 300, entry_threshold_bps := 1/10,
    max_inventory := 5, position_size := 1, debug := true }

/-- A parameter's new value as delivered by the host; `StrategyParam::Get`
typed at `int` / `double` / `bool` succeeds exactly when the payload has that
type. -/
inductive ParamValue
  | vInt (n : Int)
  | vDouble (q : ℚ)
  | vBool (b : Bool)
deriving Repr, DecidableEq

/-- `StrategyParam::Get(int*)`: the coerced value, or `none` on failure. -/
def getInt : ParamValue → Option Int
  | .vInt n => some n
  | _ => none

/-- `StrategyParam::Get(double*)`: the coerced value, or `none` on failure. -/
def getDouble : ParamValue → Option ℚ
  | .vDouble q => some q
  | _ => none

/-- `StrategyParam::Get(bool*)`: the coerced value, or `none` on failure. -/
def getBool : ParamValue → Option Bool
  | .vBool b => some b
  | _ => none

/-- `VWAPStrategy::OnParamChanged`: for each known parameter name, try to
coerce the new value into the corresponding field; on failure the field is
left unchanged and a `StrategyStudioException` is thrown (modelled as the
`Option String` component carrying the exception message). -/
def OnParamChanged (cfg : Config) (param_name : String) (v : ParamValue) :
    Config × Option String :=
  if param_name = "vwap_window_seconds" then
    match getInt v with
    | some n => ({ cfg with vwap_window_seconds := n }, none)
    | none => (cfg, some "Could not get vwap_window_seconds")
  else if param_name = "entry_threshold_bps" then
    match getDouble v with
    | some x => ({ cfg with entry_threshold_bps := x }, none)
    | none => (cfg, some "Could not get entry_threshold_bps")
  else if param_name = "max_inventory" then
    match getInt v with
    | some n => ({ cfg with max_inventory := n }, none)
    | none => (cfg, some "Could not get max_inventory")
  else if param_name = "position_size" then
    match getInt v with
    | some n => ({ cfg with position_size := n }, none)
    | none => (cfg, some "Could not get position_size")
  else if param_name = "debug" then
    match getBool v with
    | some b => ({ cfg with debug := b }, none)
    | none => (cfg, some "Could not get debug")
  else
    (cfg, none)

end VWAP

namespace VWAP

/-! Window operation sequences, for the accumulator invariant. -/

/-- One of the three operations that mutate the window state. -/
inductive WindowOp
  | add (price : ℚ) (volume : Int) (timestamp : TimeType)
  | prune (cutoff : TimeType)
  | reset
deriving Repr

/-- Apply a single window operation. -/
def applyOp (s : VWAPState) : WindowOp → VWAPState
  | .add p v t => AddTradeToWindow s p v t
  | .prune c => PruneOldTrades s c
  | .reset => OnResetStrategyState s

/-- Apply a sequence of window operations in order. -/
def applyOps (s : VWAPState) (ops : List WindowOp) : VWAPState :=
  ops.foldl applyOp s

/-- Sum of `volume` over a list of records. -/
def volumeSum (l : List VWAPTradeRecord) : Int :=
  (l.map (·.volume)).sum

/-- Sum of `price * volume` over a list of records. -/
def pvSum (l : List VWAPTradeRecord) : ℚ :=
  (l.map (fun r => r.price * (r.volume : ℚ))).sum

/-! Helper lemmas about the pruning loop. -/

theorem volumeSum_cons (r : VWAPTradeRecord) (l : List VWAPTradeRecord) :
    volumeSum (r :: l) = r.volume + volumeSum l := by
  simp [volumeSum]

theorem pvSum_cons (r : VWAPTradeRecord) (l : List VWAPTradeRecord) :
    pvSum (r :: l) = r.price * (r.volume : ℚ) + pvSum l := by
  simp [pvSum]

theorem volumeSum_append (l₁ l₂ : List VWAPTradeRecord) :
    volumeSum (l₁ ++ l₂) = volumeSum l₁ + volumeSum l₂ := by
  simp [volumeSum]

theorem pvSum_append (l₁ l₂ : List VWAPTradeRecord) :
    pvSum (l₁ ++ l₂) = pvSum l₁ + pvSum l₂ := by
  simp [pvSum]

theorem pruneAux_consistent (w : List VWAPTradeRecord) (pv : ℚ) (vol : Int)
    (c : TimeType) (hv : vol = volumeSum w) (hp : pv = pvSum w) :
    (pruneAux w pv vol c).2.2 = volumeSum (pruneAux w pv vol c).1 ∧
    (pruneAux w pv vol c).2.1 = pvSum (pruneAux w pv vol c).1 := by
  induction w generalizing pv vol with
  | nil => simpa [pruneAux] using ⟨hv, hp⟩
  | cons r rest ih =>
    by_cases h : r.timestamp < c
    · rw [show pruneAux (r :: rest) pv vol c =
          pruneAux rest (pv - r.price * r.volume) (vol - r.volume) c from by
        simp [pruneAux, h]]
      refine ih _ _ ?_ ?_
      · rw [hv, volumeSum_cons]; ring
      · rw [hp, pvSum_cons]; ring
    · rw [show pruneAux (r :: rest) pv vol c = (r :: rest, pv, vol) from by
        simp [pruneAux, h]]
      exact ⟨hv, hp⟩

theorem pruneAux_idem (w : List VWAPTradeRecord) (pv : ℚ) (vol : Int)
    (c : TimeType) :
    pruneAux (pruneAux w pv vol c).1 (pruneAux w pv vol c).2.1
      (pruneAux w pv vol c).2.2 c = pruneAux w pv vol c := by
  induction w generalizing pv vol with
  | nil => simp [pruneAux]
  | cons r rest ih =>
    by_cases h : r.timestamp < c
    · rw [show pruneAux (r :: rest) pv vol c =
          pruneAux rest (pv - r.price * r.volume) (vol - r.volume) c from by
        simp [pruneAux, h]]
      exact ih _ _
    · rw [show pruneAux (r :: rest) pv vol c = (r :: rest, pv, vol) from by
        simp [pruneAux, h]]
      simp [pruneAux, h]

theorem pruneAux_append_ne_nil (w : List VWAPTradeRecord) (pv : ℚ) (vol : Int)
    (c : TimeType) (r : VWAPTradeRecord) (hr : ¬ r.timestamp < c) :
    (pruneAux (w ++ [r]) pv vol c).1 ≠ [] := by
  induction w generalizing pv vol with
  | nil => simp [pruneAux, hr]
  | cons x xs ih =>
    by_cases h : x.timestamp < c
    · rw [show pruneAux ((x :: xs) ++ [r]) pv vol c =
          pruneAux (xs ++ [r]) (pv - x.price * x.volume) (vol - x.volume) c from by
        simp [pruneAux, h]]
      exact ih _ _
    · simp [pruneAux, h]

theorem isVWAPReady_isSome_of_ne_nil (s : VWAPState) (W : Int)
    (h : s.vwap_window ≠ []) : (IsVWAPReady s W).isSome = true := by
  unfold IsVWAPReady
  split
  · rfl
  · have hb : s.vwap_window.getLast? ≠ none := by
      simpa [List.getLast?_eq_none_iff] using h
    have hf : s.vwap_window.head? ≠ none := by
      simpa [List.head?_eq_none_iff] using h
    obtain ⟨b, hb'⟩ := Option.ne_none_iff_exists'.mp hb
    obtain ⟨f, hf'⟩ := Option.ne_none_iff_exists'.mp hf
    rw [hb', hf']
    rfl

end VWAP

namespace VWAP

/-! Claim theorems. -/

/-- Claim C1 (code_bug evidence): the source initializes `desired_position`
to `0` and the "hold" paths of the decision block never assign
`current_position` to it. At the claim's own input — `current_position = 5 =
max_inventory`, `deviation_bps = -10.0` — the code therefore computes a
desired position of `0` (a full liquidation request), not `5` as the claim
(and the spec's hold rule) states; likewise an in-threshold deviation with a
long position of 2 yields `0`, not `2`. -/
theorem desired_position_hold_branch_yields_zero :
    desiredPosition 5 (-10) 2 5 1 = 0 ∧
    desiredPosition 5 (-10) 2 5 1 ≠ 5 ∧
    desiredPosition 2 (-1) 2 5 1 = 0 ∧
    desiredPosition 2 (-1) 2 5 1 ≠ 2 := by
  decide

/-- Claim C2 (code_bug evidence): with zero trade records,
`GetVWAP` does return `0.0` as claimed, but `IsVWAPReady` does not return
`false`: the window size is below 3, so the source unconditionally evaluates
`vwap_window_.back()` and `vwap_window_.front()` on the empty deque —
undefined behaviour, modelled here as `none`. -/
theorem isVWAPReady_empty_window_undefined :
    IsVWAPReady initialVWAPState 300 = none ∧
    GetVWAP initialVWAPState = 0 := by
  decide

/-- Claim C3: after every sequence of `AddTradeToWindow`, `PruneOldTrades`
and `OnResetStrategyState` operations starting from the freshly constructed
state, `cumulative_volume_` equals the sum of `volume` over exactly the
records currently in the window and `cumulative_pv_` equals the sum of
`price * volume` over exactly those records. -/
theorem window_accumulator_invariant (ops : List WindowOp) :
    (applyOps initialVWAPState ops).cumulative_volume =
      volumeSum (applyOps initialVWAPState ops).vwap_window ∧
    (applyOps initialVWAPState ops).cumulative_pv =
      pvSum (applyOps initialVWAPState ops).vwap_window := by
  have step : ∀ (s : VWAPState) (op : WindowOp),
      s.cumulative_volume = volumeSum s.vwap_window →
      s.cumulative_pv = pvSum s.vwap_window →
      (applyOp s op).cumulative_volume = volumeSum (applyOp s op).vwap_window ∧
      (applyOp s op).cumulative_pv = pvSum (applyOp s op).vwap_window := by
    intro s op hv hp
    cases op with
    | add p v t =>
      constructor
      · simp [applyOp, AddTradeToWindow, volumeSum_append, hv, volumeSum]
      · simp [applyOp, AddTradeToWindow, pvSum_append, hp, pvSum]
    | prune c =>
      exact pruneAux_consistent s.vwap_window s.cumulative_pv
        s.cumulative_volume c hv hp
    | reset =>
      simp [applyOp, OnResetStrategyState, volumeSum, pvSum]
  have main : ∀ (ops : List WindowOp) (s : VWAPState),
      s.cumulative_volume = volumeSum s.vwap_window →
      s.cumulative_pv = pvSum s.vwap_window →
      (applyOps s ops).cumulative_volume =
        volumeSum (applyOps s ops).vwap_window ∧
      (applyOps s ops).cumulative_pv = pvSum (applyOps s ops).vwap_window := by
    intro ops
    induction ops with
    | nil => intro s hv hp; exact ⟨hv, hp⟩
    | cons op rest ih =>
      intro s hv hp
      have h := step s op hv hp
      exact ih (applyOp s op) h.1 h.2
  exact main ops initialVWAPState (by simp [initialVWAPState, volumeSum])
    (by simp [initialVWAPState, pvSum])

/-- Claim C4: for a non-empty, time-ordered window (`front` timestamp at most
`back` timestamp, as holds for every window built from non-decreasing event
times), `IsVWAPReady` does not fail, and it returns `true` exactly when the
window holds at least 3 records or the span between oldest and newest record
is at least `vwap_window_seconds_` seconds. -/
theorem vwap_readiness_rule (s : VWAPState) (W : Int) (f b : VWAPTradeRecord)
    (hf : s.vwap_window.head? = some f) (hb : s.vwap_window.getLast? = some b)
    (hord : f.timestamp ≤ b.timestamp) :
    (IsVWAPReady s W).isSome = true ∧
    (IsVWAPReady s W = some true ↔
      3 ≤ s.vwap_window.length ∨
      W * microsPerSecond ≤ b.timestamp - f.timestamp) := by
  have hd : (0 : Int) ≤ b.timestamp - f.timestamp := sub_nonneg.mpr hord
  have key : W ≤ totalSeconds (b.timestamp - f.timestamp) ↔
      W * microsPerSecond ≤ b.timestamp - f.timestamp := by
    unfold totalSeconds microsPerSecond
    rw [Int.tdiv_eq_ediv hd (by norm_num)]
    exact Int.le_ediv_iff_mul_le (by norm_num)
  unfold IsVWAPReady
  rw [hb, hf]
  split
  next h3 => simp [h3]
  next h3 => simp [h3, key]

/-- A concrete window holding three records, two seconds apart. -/
def readyState3 : VWAPState :=
  { vwap_window := [⟨0, 100, 1⟩, ⟨1000000, 100, 1⟩, ⟨2000000, 100, 1⟩],
    cumulative_pv := 300, cumulative_volume := 3 }

/-- Witness for C4: a concrete three-record window is ready. -/
theorem vwap_readiness_rule_witness :
    (IsVWAPReady readyState3 300).isSome = true ∧
    (IsVWAPReady readyState3 300 = some true ↔
      3 ≤ readyState3.vwap_window.length ∨
      300 * microsPerSecond ≤
        (⟨2000000, 100, 1⟩ : VWAPTradeRecord).timestamp -
        (⟨0, 100, 1⟩ : VWAPTradeRecord).timestamp) :=
  vwap_readiness_rule readyState3 300 ⟨0, 100, 1⟩ ⟨2000000, 100, 1⟩
    rfl rfl (by decide)

/-- Claim C5: exit comparisons are non-strict and entry comparisons strict:
a position of ±2 with zero deviation exits to flat; from flat with threshold
2.0 bps, deviation -3.0 buys one unit, +3.0 sells one unit, 0.0 holds flat,
and deviation exactly ±2.0 triggers no entry. -/
theorem decision_threshold_hysteresis (th : ℚ) (mi ps : Int) :
    desiredPosition 2 0 th mi ps = 0 ∧
    desiredPosition (-2) 0 th mi ps = 0 ∧
    desiredPosition 0 (-3) 2 5 1 = 1 ∧
    desiredPosition 0 3 2 5 1 = -1 ∧
    desiredPosition 0 0 2 5 1 = 0 ∧
    desiredPosition 0 (-2) 2 5 1 = 0 ∧
    desiredPosition 0 2 2 5 1 = 0 := by
  refine ⟨?_, ?_, by decide, by decide, by decide, by decide, by decide⟩
  · simp [desiredPosition]
  · simp [desiredPosition]

end VWAP

namespace VWAP

/-- A two-sided valid quote. -/
def goodQuote : TopQuote :=
  { bid := 100, ask := 101, bid_valid := true, ask_valid := true }

/-- A quote whose ask side is invalid. -/
def invalidAskQuote : TopQuote :=
  { bid := 100, ask := 101, bid_valid := true, ask_valid := false }

/-- Counterexample to claim C6 as stated: with `trade_size = 1 - 0 ≠ 0` and
no working orders, but an invalid ask side, `SendOrder`'s quote guard fires
and no new market order is submitted — the event produces no order action at
all, contradicting "exactly one new market order is submitted". -/
theorem adjust_portfolio_invalid_quote_cex :
    (1 : Int) - 0 ≠ 0 ∧ ([] : List Order).length = 0 ∧
    AdjustPortfolio .equity invalidAskQuote 0 1 [] = .noAction := by
  decide

/-- Claim C6 as amended: the new-order case additionally requires a two-sided
valid top quote; all other cases are as claimed, and every case issues at
most one order action (the function returns a single `OrderAction`). -/
theorem order_adjustment_rules (it : InstrumentType) (q : TopQuote)
    (cp dp : Int) (working_orders : List Order) :
    (dp - cp = 0 → working_orders ≠ [] →
      AdjustPortfolio it q cp dp working_orders = .sendCancelAll) ∧
    (dp - cp = 0 → working_orders = [] →
      AdjustPortfolio it q cp dp working_orders = .noAction) ∧
    (dp - cp ≠ 0 → working_orders = [] →
      q.ask_valid = true → q.bid_valid = true →
      AdjustPortfolio it q cp dp working_orders = .sendNewOrder
        { quantity := |dp - cp|,
          price := if 0 < dp - cp then q.ask else q.bid,
          market_center := if it = .equity then .nasdaq else .cmeGlobex,
          side := if 0 < dp - cp then .buy else .sell,
          tif := .day,
          order_type := .market }) ∧
    (dp - cp ≠ 0 → working_orders = [] →
      (q.ask_valid = false ∨ q.bid_valid = false) →
      AdjustPortfolio it q cp dp working_orders = .noAction) ∧
    (∀ o rest, working_orders = o :: rest → dp - cp ≠ 0 →
      (((o.order_side = .buy ∧ dp - cp < 0) ∨
        (o.order_side = .sell ∧ 0 < dp - cp)) →
        AdjustPortfolio it q cp dp working_orders = .sendCancelOrder o.order_id) ∧
      (¬ ((o.order_side = .buy ∧ dp - cp < 0) ∨
          (o.order_side = .sell ∧ 0 < dp - cp)) →
        AdjustPortfolio it q cp dp working_orders = .noAction)) := by
  refine ⟨?_, ?_, ?_, ?_, ?_⟩
  · intro h0 hw
    simp [AdjustPortfolio, h0, List.length_pos.mpr hw]
  · intro h0 hw
    subst hw
    simp [AdjustPortfolio, h0]
  · intro hne hw ha hb
    subst hw
    simp [AdjustPortfolio, SendOrder, hne, ha, hb]
  · intro hne hw hv
    subst hw
    rcases hv with h | h <;> simp [AdjustPortfolio, SendOrder, hne, h]
  · intro o rest hw hne
    subst hw
    constructor
    · intro hc
      simp only [AdjustPortfolio, List.head?_cons, List.length_cons]
      rw [if_pos hne]
      rw [if_neg (by simp)]
      rw [if_pos hc]
    · intro hc
      simp only [AdjustPortfolio, List.head?_cons, List.length_cons]
      rw [if_pos hne]
      rw [if_neg (by simp)]
      rw [if_neg hc]

/-- Witness for C6 (amended): from flat to a desired position of one with a
two-sided quote and no working orders, a single market buy for one unit at
the ask is submitted. -/
theorem order_adjustment_rules_witness :
    AdjustPortfolio .equity goodQuote 0 1 [] = .sendNewOrder
      { quantity := |(1 : Int) - 0|,
        price := if 0 < (1 : Int) - 0 then goodQuote.ask else goodQuote.bid,
        market_center :=
          if InstrumentType.equity = .equity then .nasdaq else .cmeGlobex,
        side := if 0 < (1 : Int) - 0 then .buy else .sell,
        tif := .day,
        order_type := .market } :=
  (order_adjustment_rules .equity goodQuote 0 1 []).2.2.1
    (by decide) rfl rfl rfl

/-- Claim C7: `GetVWAP` returns `0.0` exactly when `cumulative_volume_ == 0`
and otherwise `cumulative_pv_ / cumulative_volume_`; `CalculateDeviation`
returns `0.0` when `vwap == 0.0` and otherwise
`((mid_price - vwap) / vwap) * 10000.0`. Both are total functions of their
inputs (no error path exists). -/
theorem vwap_and_deviation_total (s : VWAPState) (mid_price vwap : ℚ) :
    (s.cumulative_volume = 0 → GetVWAP s = 0) ∧
    (s.cumulative_volume ≠ 0 →
      GetVWAP s = s.cumulative_pv / (s.cumulative_volume : ℚ)) ∧
    (vwap = 0 → CalculateDeviation mid_price vwap = 0) ∧
    (vwap ≠ 0 →
      CalculateDeviation mid_price vwap =
        ((mid_price - vwap) / vwap) * 10000) := by
  refine ⟨?_, ?_, ?_, ?_⟩ <;> intro h <;>
    simp [GetVWAP, CalculateDeviation, h]

/-- A one-record window state: one trade of 2 units at price 100. -/
def oneTradeState : VWAPState :=
  { vwap_window := [⟨0, 100, 2⟩], cumulative_pv := 200, cumulative_volume := 2 }

/-- Witness for C7 at a concrete nonzero-volume state and nonzero VWAP. -/
theorem vwap_and_deviation_total_witness :
    GetVWAP oneTradeState =
      oneTradeState.cumulative_pv / (oneTradeState.cumulative_volume : ℚ) ∧
    CalculateDeviation 101 100 = ((101 - 100) / 100) * 10000 :=
  ⟨(vwap_and_deviation_total oneTradeState 101 100).2.1 (by decide),
   (vwap_and_deviation_total oneTradeState 101 100).2.2.2 (by decide)⟩

/-- Claim C8: pruning is idempotent — running `PruneOldTrades` twice with the
same cutoff leaves the window and both accumulators exactly as after the
first run. -/
theorem prune_idempotent (s : VWAPState) (cutoff : TimeType) :
    PruneOldTrades (PruneOldTrades s cutoff) cutoff = PruneOldTrades s cutoff := by
  simp only [PruneOldTrades]
  rw [pruneAux_idem]

/-- Claim C9: for each of the five known parameter names, `OnParamChanged`
throws (the second component carries the exception message) exactly when the
new value fails to coerce to the field's type; in that case the configuration
is unchanged, and on success exactly the named field is updated and the other
four keep their values. -/
theorem on_param_changed_spec (cfg : Config) (v : ParamValue) :
    ((OnParamChanged cfg "vwap_window_seconds" v).2.isSome = true ↔
      getInt v = none) ∧
    (getInt v = none → (OnParamChanged cfg "vwap_window_seconds" v).1 = cfg) ∧
    (∀ n, getInt v = some n →
      OnParamChanged cfg "vwap_window_seconds" v =
        ({ cfg with vwap_window_seconds := n }, none)) ∧
    ((OnParamChanged cfg "entry_threshold_bps" v).2.isSome = true ↔
      getDouble v = none) ∧
    (getDouble v = none → (OnParamChanged cfg "entry_threshold_bps" v).1 = cfg) ∧
    (∀ x, getDouble v = some x →
      OnParamChanged cfg "entry_threshold_bps" v =
        ({ cfg with entry_threshold_bps := x }, none)) ∧
    ((OnParamChanged cfg "max_inventory" v).2.isSome = true ↔
      getInt v = none) ∧
    (getInt v = none → (OnParamChanged cfg "max_inventory" v).1 = cfg) ∧
    (∀ n, getInt v = some n →
      OnParamChanged cfg "max_inventory" v =
        ({ cfg with max_inventory := n }, none)) ∧
    ((OnParamChanged cfg "position_size" v).2.isSome = true ↔
      getInt v = none) ∧
    (getInt v = none → (OnParamChanged cfg "position_size" v).1 = cfg) ∧
    (∀ n, getInt v = some n →
      OnParamChanged cfg "position_size" v =
        ({ cfg with position_size := n }, none)) ∧
    ((OnParamChanged cfg "debug" v).2.isSome = true ↔ getBool v = none) ∧
    (getBool v = none → (OnParamChanged cfg "debug" v).1 = cfg) ∧
    (∀ b, getBool v = some b →
      OnParamChanged cfg "debug" v = ({ cfg with debug := b }, none)) := by
  cases v <;> simp [OnParamChanged, getInt, getDouble, getBool]

/-- Witness for C9: a successful integer update of `max_inventory` and a
failed boolean coercion for `debug`. -/
theorem on_param_changed_spec_witness :
    OnParamChanged defaultConfig "max_inventory" (ParamValue.vInt 42) =
      ({ defaultConfig with max_inventory := 42 }, none) ∧
    (OnParamChanged defaultConfig "debug" (ParamValue.vInt 42)).1 =
      defaultConfig :=
  ⟨(on_param_changed_spec defaultConfig (ParamValue.vInt 42)).2.2.2.2.2.2.2.2.1
      42 rfl,
   (on_param_changed_spec defaultConfig
      (ParamValue.vInt 42)).2.2.2.2.2.2.2.2.2.2.2.2.2.1 rfl⟩

/-- Claim C10: inside `OnTrade`, with a non-negative `vwap_window_seconds_`,
the pruning cutoff `event_time - seconds(vwap_window_seconds_)` never removes
the record just added (whose timestamp is `event_time`), so the window is
non-empty when `IsVWAPReady` is invoked on this path and its `front`/`back`
accesses succeed. -/
theorem ontrade_window_nonempty (s : VWAPState) (price : ℚ) (volume : Int)
    (event_time : TimeType) (W : Int) (hW : 0 ≤ W) :
    (OnTradeWindowUpdate s price volume event_time W).vwap_window ≠ [] ∧
    (IsVWAPReady (OnTradeWindowUpdate s price volume event_time W) W).isSome =
      true := by
  have hr : ¬ (⟨event_time, price, volume⟩ : VWAPTradeRecord).timestamp <
      event_time - W * microsPerSecond := by
    show ¬ event_time < event_time - W * microsPerSecond
    simp only [microsPerSecond, not_lt]
    have h0 : (0 : Int) ≤ W * 1000000 := mul_nonneg hW (by norm_num)
    linarith
  have hne : (OnTradeWindowUpdate s price volume event_time W).vwap_window ≠ [] := by
    simpa [OnTradeWindowUpdate, PruneOldTrades, AddTradeToWindow] using
      pruneAux_append_ne_nil s.vwap_window
        (s.cumulative_pv + price * volume) (s.cumulative_volume + volume)
        (event_time - W * microsPerSecond) ⟨event_time, price, volume⟩ hr
  exact ⟨hne, isVWAPReady_isSome_of_ne_nil _ W hne⟩

/-- Witness for C10 at a concrete trade and the default 300-second window. -/
theorem ontrade_window_nonempty_witness :
    (OnTradeWindowUpdate initialVWAPState 100 1 0 300).vwap_window ≠ [] ∧
    (IsVWAPReady (OnTradeWindowUpdate initialVWAPState 100 1 0 300)
      300).isSome = true :=
  ontrade_window_nonempty initialVWAPState 100 1 0 300 (by decide)

end VWAP
